import Mathlib

/-
Verification of the Eventbrite ticket auto-booking program (src/app.py).

The polling engine (fetch_page, check_ticket_availability) and the checkout
automation (automate_registration, purchase_attempt) are embedded shallowly:
HTTP traffic is an environment mapping a page number to an HTTP outcome,
the sequential page loop is written with explicit fuel, and the concurrent
mode takes the completion order of the worker pool as a parameter.  Machine
observable effects that the claims mention (pages fetched, notifications
sent, exit code, screenshots captured) are carried in the return values.
-/

namespace EventbriteApp

/-- One entry of the ticket_classes array of an API payload.  The code reads
the fields id, name and on_sale_status; on_sale_status is accessed with
dict.get, so it may be absent, which we model with Option. -/
structure TicketClass where
  id : String
  name : String
  on_sale_status : Option String
deriving Repr, DecidableEq

/-- Pagination metadata of a payload.  Both fields are read with dict.get
with a default (page_count defaults to 1 at line 237, has_more_items to
False at line 296), so each may be absent. -/
structure Pagination where
  has_more_items : Option Bool
  page_count : Option Nat
deriving Repr, DecidableEq

/-- One parsed API payload: the ticket_classes array (dict.get with default
empty list) and the pagination object (dict.get with default empty dict,
modelled as both fields absent). -/
structure Payload where
  ticket_classes : List TicketClass
  pagination : Pagination
deriving Repr, DecidableEq

/-- A matched ticket as appended to available_tickets: a record of id, name
and the on_sale_status string. -/
structure AvailableTicket where
  id : String
  name : String
  on_sale_status : String
deriving Repr, DecidableEq

/-- Outcome of one HTTP GET as seen by fetch_page: either a response with a
status code (the body only meaningful for status 200, where response.json()
is called), or a transport-level failure, which in the code raises a
requests.exceptions.RequestException out of session.get. -/
inductive HttpResult where
  | resp (status : Nat) (body : Payload)
  | transportError
deriving Repr, DecidableEq

/-- Result of one call of fetch_page (src/app.py lines 150-191).
terminated records the process exit triggered by status 429 (one
send_discord_notification call, then exit(1)); raised records a transport
exception propagating to the caller; payload is the parsed JSON of a 200
response; noData is the None returned for every other status. -/
inductive FetchResult where
  | terminated (notifications exitCode : Nat)
  | raised
  | payload (p : Payload)
  | noData
deriving Repr, DecidableEq

/-- Embedding of fetch_page: status 429 sends exactly one notification and
exits with code 1 (lines 171-186); status 200 returns the parsed body
(lines 188-189); any other status returns None (line 191); a transport
failure propagates (line 168). -/
def fetch_page (r : HttpResult) : FetchResult :=
  match r with
  | .transportError => .raised
  | .resp status body =>
    if status = 429 then .terminated 1 1
    else if status = 200 then .payload body
    else .noData

/-- The early-exit per-page scan (lines 221-227, 253-260, 281-287): a ticket
matches when tc.get with key on_sale_status equals the string AVAILABLE,
and the matched record stores id, name and that status string. -/
def earlyScan (tcs : List TicketClass) : List AvailableTicket :=
  tcs.filterMap fun tc =>
    match tc.on_sale_status with
    | some s => if s = "AVAILABLE" then some ⟨tc.id, tc.name, s⟩ else none
    | none => none

/-- The final full-set scan (lines 313-320): on_sale_status is read with
default empty string and compared with AVAILABLE. -/
def finalScan (tcs : List TicketClass) : List AvailableTicket :=
  tcs.filterMap fun tc =>
    let s := tc.on_sale_status.getD ""
    if s = "AVAILABLE" then some ⟨tc.id, tc.name, s⟩ else none

/-- The availability evaluation over the merged set (lines 311-329): the
verdict is True exactly when the matched list is nonempty, and the matched
list is returned for logging. -/
def evaluateAvailability (all : List TicketClass) : Bool × List AvailableTicket :=
  let available_tickets := finalScan all
  (!available_tickets.isEmpty, available_tickets)

/-- How one aggregation loop ends, carrying the merged list accumulated so
far.  fuelOut is an artifact of the fuel-indexed embedding of the
unbounded while loop and is never the subject of a claim. -/
inductive LoopExit where
  | fuelOut (all : List TicketClass)
  | exited (notifications exitCode : Nat)
  | raised (all : List TicketClass)
  | earlyAvailable (matched : List AvailableTicket) (all : List TicketClass)
  | finished (all : List TicketClass)
deriving Repr, DecidableEq

/-- The sequential page loop (lines 268-298).  Arguments after earlyExit:
fuel, current page number, accumulated all_ticket_classes, and the trace of
pages for which a fetch has been issued.  Each iteration fetches the
current page; None breaks the loop; a payload is merged, then with early
exit enabled the page is scanned and a nonempty match returns immediately;
otherwise the loop continues exactly when has_more_items (default False)
is true. -/
def seqLoop (env : Nat → HttpResult) (earlyExit : Bool) :
    Nat → Nat → List TicketClass → List Nat → LoopExit × List Nat
  | 0, _page, acc, trace => (.fuelOut acc, trace)
  | fuel + 1, page, acc, trace =>
    match fetch_page (env page) with
    | .terminated n c => (.exited n c, trace ++ [page])
    | .raised => (.raised acc, trace ++ [page])
    | .noData => (.finished acc, trace ++ [page])
    | .payload data =>
      let tickets := data.ticket_classes
      let acc2 := acc ++ tickets
      if earlyExit && !(earlyScan tickets).isEmpty then
        (.earlyAvailable (earlyScan tickets) acc2, trace ++ [page])
      else if data.pagination.has_more_items.getD false then
        seqLoop env earlyExit fuel (page + 1) acc2 (trace ++ [page])
      else
        (.finished acc2, trace ++ [page])

/-- Observable outcome of one whole poll cycle, either a process exit
triggered inside a fetch, or the boolean verdict together with the matched
tickets that the cycle reports. -/
inductive CycleOutcome where
  | fuelOut
  | exited (notifications exitCode : Nat)
  | result (available : Bool) (matched : List AvailableTicket)
deriving Repr, DecidableEq

/-- One poll cycle of check_ticket_availability in sequential mode
(ENABLE_PARALLEL_FETCH falsy, lines 267-298 plus the shared tail
300-332).  A transport exception anywhere in the loop is caught by the
handler at lines 330-332, which returns False with nothing matched; an
early-exit match returns True with the matched page entries; otherwise the
final scan over the merged set decides the verdict. -/
def seqCheck (env : Nat → HttpResult) (earlyExit : Bool) (fuel : Nat) :
    CycleOutcome × List Nat :=
  match seqLoop env earlyExit fuel 1 [] [] with
  | (.fuelOut _, tr) => (.fuelOut, tr)
  | (.exited n c, tr) => (.exited n c, tr)
  | (.raised _, tr) => (.result false [], tr)
  | (.earlyAvailable m _, tr) => (.result true m, tr)
  | (.finished all, tr) =>
    let ev := evaluateAvailability all
    (.result ev.1 ev.2, tr)

/-- The as_completed merge loop of concurrent mode (lines 245-266).  The
list argument is the order in which the submitted futures complete; a page
whose fetch returned None is skipped (line 247); a payload is merged and,
with early exit enabled, scanned, returning on the first nonempty match; a
429 exit or a transport exception raised inside a worker is re-raised by
future.result() in this loop. -/
def concLoop (env : Nat → HttpResult) (earlyExit : Bool) :
    List Nat → List TicketClass → LoopExit
  | [], acc => .finished acc
  | p :: rest, acc =>
    match fetch_page (env p) with
    | .terminated n c => .exited n c
    | .raised => .raised acc
    | .noData => concLoop env earlyExit rest acc
    | .payload data =>
      let tickets := data.ticket_classes
      let acc2 := acc ++ tickets
      if earlyExit && !(earlyScan tickets).isEmpty then
        .earlyAvailable (earlyScan tickets) acc2
      else
        concLoop env earlyExit rest acc2

/-- One poll cycle of check_ticket_availability in concurrent mode
(ENABLE_PARALLEL_FETCH truthy, lines 209-266 plus the shared tail).  Page 1
is fetched alone first; if it yields no data the cycle returns False
(lines 212-214); with early exit enabled a match on page 1 returns
immediately before any further request is issued (lines 220-234); otherwise
page_count (default 1) is read and, when it exceeds 1, one fetch per page
2..page_count is submitted to the pool, so the issued-fetch trace is page 1
followed by 2..page_count independently of completion order; the order
argument is the completion order in which the merge loop consumes the
results. -/
def concCheck (env : Nat → HttpResult) (earlyExit : Bool) (order : List Nat) :
    CycleOutcome × List Nat :=
  match fetch_page (env 1) with
  | .terminated n c => (.exited n c, [1])
  | .raised => (.result false [], [1])
  | .noData => (.result false [], [1])
  | .payload first_page =>
    let firstTickets := first_page.ticket_classes
    if earlyExit && !(earlyScan firstTickets).isEmpty then
      (.result true (earlyScan firstTickets), [1])
    else
      let page_count := first_page.pagination.page_count.getD 1
      if page_count > 1 then
        let trace := 1 :: List.range' 2 (page_count - 1)
        match concLoop env earlyExit order firstTickets with
        | .fuelOut _ => (.fuelOut, trace)
        | .exited n c => (.exited n c, trace)
        | .raised _ => (.result false [], trace)
        | .earlyAvailable m _ => (.result true m, trace)
        | .finished all =>
          let ev := evaluateAvailability all
          (.result ev.1 ev.2, trace)
      else
        let ev := evaluateAvailability firstTickets
        (.result ev.1 ev.2, [1])

/-- The selector fallback loop used at lines 374-384, 556-564 and 585-593:
candidates are tried in list order, a TimeoutException moves to the next
candidate, the first success breaks.  The resolve argument models one
bounded wait.until on one candidate; the returned list records which
candidates were attempted, in order. -/
def resolveLoop (resolve : α → Option β) : List α → Option β × List α
  | [] => (none, [])
  | s :: rest =>
    match resolve s with
    | some e => (some e, [s])
    | none =>
      let r := resolveLoop resolve rest
      (r.1, s :: r.2)

/-- Errors thrown inside the automation attempt, matching the three except
clauses at lines 608, 624 and 627. -/
inductive AutoError where
  | timeout
  | noSuchElement
  | otherError
deriving Repr, DecidableEq

/-- A selector chain followed by a final wait.until on an XPath locator,
which raises TimeoutException when it never resolves (lines 387-391 and
595-599). -/
def resolveOrXPath (chain : List (Option β)) (xp : Option β) : Except AutoError β :=
  match (resolveLoop (fun o => o) chain).1 with
  | some e => .ok e
  | none =>
    match xp with
    | some e => .ok e
    | none => .error .timeout

/-- What the date-selection step of Step 2 can observe (lines 425-538).
numericButtonCount is the number of numeric-text button elements found by
the first strategy at line 460, which the code counts but never assigns to
available_date; nonButtonDate is the element produced by the generic
numeric-text element search, tried only when that count is zero (line 465);
enabledLi is the enabled list-item fallback (lines 502-514); and
calendarAreaButton is the final catch-all search over grid, table and
calendar containers (lines 521-538). -/
structure DateSearchEnv (β : Type) where
  numericButtonCount : Nat
  nonButtonDate : Option β
  enabledLi : Option β
  calendarAreaButton : Option β

/-- The date-selection cascade: available_date stays unset by the button
count strategy, the non-button search runs only when no numeric buttons
were found, the list-item fallback runs only while still unset, and the
calendar-area catch-all runs last (lines 423-538). -/
def findAvailableDate (d : DateSearchEnv β) : Option β :=
  let afterNonButton := if d.numericButtonCount = 0 then d.nonButtonDate else none
  let afterLi :=
    match afterNonButton with
    | some e => some e
    | none => d.enabledLi
  match afterLi with
  | some e => some e
  | none => d.calendarAreaButton

/-- Resolution outcomes of every locator automate_registration consults:
the Check availability CSS chain and its XPath fallback (lines 367-391),
the date-selection searches, the time-slot chain (lines 549-564, no XPath
fallback, a miss raises at line 567), and the Register chain with its
XPath fallback (lines 578-599). -/
structure AutomationEnv (β : Type) where
  checkAvailabilityChain : List (Option β)
  checkAvailabilityXPath : Option β
  date : DateSearchEnv β
  timeSlotChain : List (Option β)
  registerChain : List (Option β)
  registerXPath : Option β

/-- The body of automate_registration inside its outer try (lines 357-606):
each step either resolves its target or throws, a missing date raising
TimeoutException at line 541 and a missing time slot at line 567. -/
def automationBody (env : AutomationEnv β) : Except AutoError Unit := do
  let _btn ← resolveOrXPath env.checkAvailabilityChain env.checkAvailabilityXPath
  let _date ←
    match findAvailableDate env.date with
    | some e => Except.ok e
    | none => Except.error AutoError.timeout
  let _slot ←
    match (resolveLoop (fun o => o) env.timeSlotChain).1 with
    | some e => Except.ok e
    | none => Except.error AutoError.timeout
  let _reg ← resolveOrXPath env.registerChain env.registerXPath
  Except.ok ()

/-- Result of automate_registration: the boolean it returns, and the number
of error-path diagnostic screenshot captures it attempted. -/
structure RegistrationResult where
  success : Bool
  errorScreenshots : Nat
deriving Repr, DecidableEq

/-- Embedding of automate_registration (lines 338-631): success returns
True with no error capture; a TimeoutException is caught at line 608,
attempts exactly one diagnostic screenshot (lines 615-621) and returns
False; the NoSuchElementException and broad Exception handlers (lines
624-631) return False without a capture.  Every error is caught, so the
function is total and no exception escapes the attempt boundary. -/
def automate_registration (env : AutomationEnv β) : RegistrationResult :=
  match automationBody env with
  | .ok _ => ⟨true, 0⟩
  | .error .timeout => ⟨false, 1⟩
  | .error .noSuchElement => ⟨false, 0⟩
  | .error .otherError => ⟨false, 0⟩

/-- Observable outcome of purchase_attempt: the automation result plus
whether the failure-path manual-handoff message of lines 728-731 was
shown. -/
structure PurchaseOutcome where
  success : Bool
  errorScreenshots : Nat
  failureHandoffShown : Bool
deriving Repr, DecidableEq

/-- Embedding of purchase_attempt (lines 689-738): it runs
automate_registration and, when that returns False, prints the
Automation-failed handoff message asking the operator to complete the
process manually. -/
def purchase_attempt (env : AutomationEnv β) : PurchaseOutcome :=
  let r := automate_registration env
  ⟨r.success, r.errorScreenshots, !r.success⟩

/-- Sample payloads and tickets used by the concrete witnesses below. -/
def tcSold : TicketClass := ⟨"t1", "GA", some "SOLD_OUT"⟩

def tcAvail : TicketClass := ⟨"t2", "VIP", some "AVAILABLE"⟩

def emptyPay : Payload := ⟨[], ⟨none, none⟩⟩

/-- The comparison with default empty string in the final scan agrees with
the comparison against the present value in the early scan. -/
lemma getD_eq_available (o : Option String) :
    o.getD "" = "AVAILABLE" ↔ o = some "AVAILABLE" := by
  cases o <;> simp [Option.getD]

/-- Both per-ticket scans keep exactly the tickets whose on_sale_status is
present and equal to AVAILABLE, and record the same projection, so they
agree on every list. -/
lemma earlyScan_eq_finalScan (tcs : List TicketClass) :
    earlyScan tcs = finalScan tcs := by
  induction tcs with
  | nil => rfl
  | cons tc rest ih =>
    simp only [earlyScan, finalScan, List.filterMap_cons] at ih ⊢
    cases h : tc.on_sale_status with
    | none => simpa [h] using ih
    | some s =>
      by_cases hs : s = "AVAILABLE"
      · simpa [h, hs] using ih
      · simpa [h, hs] using ih

/-- The final scan written as a filter of the input followed by the record
projection. -/
lemma finalScan_eq_map_filter (tcs : List TicketClass) :
    finalScan tcs =
      (tcs.filter fun tc => tc.on_sale_status == some "AVAILABLE").map
        fun tc => ⟨tc.id, tc.name, "AVAILABLE"⟩ := by
  induction tcs with
  | nil => rfl
  | cons tc rest ih =>
    simp only [finalScan, List.filterMap_cons, List.filter_cons] at ih ⊢
    cases h : tc.on_sale_status with
    | none => simp [h, ih]
    | some s =>
      by_cases hs : s = "AVAILABLE"
      · simp [h, hs, ih]
      · simp [h, hs, ih]

/-- The final scan is empty exactly when no ticket of the list has status
AVAILABLE. -/
lemma finalScan_isEmpty_iff (tcs : List TicketClass) :
    (finalScan tcs).isEmpty = true ↔
      ∀ tc ∈ tcs, tc.on_sale_status ≠ some "AVAILABLE" := by
  rw [finalScan_eq_map_filter]
  simp [List.isEmpty_iff, List.filter_eq_nil_iff]

/-- C1: for every merged ticket-class set, the availability evaluation
reports available exactly when some entry has on_sale_status equal to
AVAILABLE, the empty set is never available, and the matched subset is
exactly the projection of the entries whose status is AVAILABLE. -/
theorem availability_evaluator_spec (tcs : List TicketClass) :
    ((evaluateAvailability tcs).1 = true ↔
        ∃ tc ∈ tcs, tc.on_sale_status = some "AVAILABLE")
    ∧ (evaluateAvailability ([] : List TicketClass)).1 = false
    ∧ (evaluateAvailability tcs).2 =
        (tcs.filter fun tc => tc.on_sale_status == some "AVAILABLE").map
          fun tc => ⟨tc.id, tc.name, "AVAILABLE"⟩ := by
  refine ⟨?_, rfl, ?_⟩
  · have h := finalScan_isEmpty_iff tcs
    simp only [evaluateAvailability, Bool.not_eq_true']
    constructor
    · intro hne
      by_contra hall
      push_neg at hall
      exact absurd (h.mpr hall) (by simp [hne])
    · intro ⟨tc, htc, hav⟩
      by_contra hemp
      simp only [Bool.not_eq_false] at hemp
      exact (h.mp hemp) tc htc hav
  · simpa [evaluateAvailability] using finalScan_eq_map_filter tcs

/-- C10: a ticket-class entry with no on_sale_status field is invisible to
both availability scans: removing it from any position changes neither scan
result, and a cycle evaluation over that entry alone is not available. -/
theorem missing_status_never_matches (tc : TicketClass)
    (h : tc.on_sale_status = none) :
    (∀ l1 l2 : List TicketClass,
        finalScan (l1 ++ tc :: l2) = finalScan (l1 ++ l2)
        ∧ earlyScan (l1 ++ tc :: l2) = earlyScan (l1 ++ l2))
    ∧ (evaluateAvailability [tc]).1 = false := by
  constructor
  · intro l1 l2
    constructor
    · simp [finalScan, List.filterMap_append, List.filterMap_cons, h]
    · simp [earlyScan, List.filterMap_append, List.filterMap_cons, h]
  · simp [evaluateAvailability, finalScan, List.filterMap_cons, h]

/-- Witness for C10 at a concrete entry lacking on_sale_status. -/
theorem missing_status_never_matches_witness :
    (finalScan ([tcAvail] ++ TicketClass.mk "t3" "Door" none :: [tcSold])
        = finalScan ([tcAvail] ++ [tcSold])
      ∧ earlyScan ([tcAvail] ++ TicketClass.mk "t3" "Door" none :: [tcSold])
        = earlyScan ([tcAvail] ++ [tcSold]))
    ∧ (evaluateAvailability [TicketClass.mk "t3" "Door" none]).1 = false :=
  ⟨(missing_status_never_matches ⟨"t3", "Door", none⟩ rfl).1 [tcAvail] [tcSold],
   (missing_status_never_matches ⟨"t3", "Door", none⟩ rfl).2⟩

/-- C7: when every candidate before b fails to resolve and b resolves to e,
the fallback loop returns e and the attempted candidates are exactly the
failing ones followed by b; nothing after b is ever attempted. -/
theorem selector_first_success {α β : Type} (resolve : α → Option β)
    (pre post : List α) (b : α) (e : β)
    (hpre : ∀ a ∈ pre, resolve a = none) (hb : resolve b = some e) :
    resolveLoop resolve (pre ++ b :: post) = (some e, pre ++ [b]) := by
  induction pre with
  | nil => simp [resolveLoop, hb]
  | cons a rest ih =>
    have ha : resolve a = none := hpre a (by simp)
    have ih2 := ih fun x hx => hpre x (by simp [hx])
    simp [resolveLoop, ha, ih2]

/-- Witness for C7: candidate A fails, B resolves to 7, C follows; only A
and B are attempted. -/
theorem selector_first_success_witness :
    resolveLoop (fun s => if s = "B" then some 7 else none) (["A"] ++ "B" :: ["C"])
      = (some 7, ["A"] ++ ["B"]) :=
  selector_first_success (fun s => if s = "B" then some 7 else none)
    ["A"] ["C"] "B" 7 (by decide) (by decide)

/-- Page-1 payload with one sold-out ticket, reporting three pages. -/
def pay5 : Payload := ⟨[tcSold], ⟨some true, some 3⟩⟩

/-- Concurrent cycle in which page 2 fails at transport level and page 3
answers 429: the worker running page 3 sends its notification and raises
SystemExit, which the pool stores on the page-3 future. -/
def envC2 : Nat → HttpResult := fun n =>
  if n = 1 then .resp 200 pay5
  else if n = 2 then .transportError
  else .resp 429 emptyPay

/-- C2 failing-input evaluation: the fetch of page 3 does come back as the
429 termination (one notification, exit code 1), yet when the merge loop
consumes the page-2 transport failure first, that exception is the one
re-raised and caught at lines 330-332, so the cycle completes with a
not-available verdict and the process keeps polling: the stored SystemExit
of the page-3 future is never retrieved.  Only the opposite completion
order surfaces the exit.  All three pages appear in the issued-fetch
trace in either case. -/
theorem rate_limit_lost_exit :
    fetch_page (envC2 3) = .terminated 1 1
    ∧ concCheck envC2 false [2, 3] = (.result false [], [1, 2, 3])
    ∧ concCheck envC2 false [3, 2] = (.exited 1 1, [1, 2, 3]) := by
  refine ⟨rfl, rfl, rfl⟩

/-- C6: in concurrent mode with early exit enabled, when page 1 contains a
ticket with status AVAILABLE, the cycle returns the available verdict with
the page-1 matches at once and the issued-fetch trace is exactly the single
page 1, so no fetch for any page of number at least 2 is ever issued,
whatever the completion order would have been. -/
theorem conc_early_exit_page1 (env : Nat → HttpResult) (p1 : Payload)
    (order : List Nat)
    (h1 : env 1 = .resp 200 p1)
    (havail : ∃ tc ∈ p1.ticket_classes, tc.on_sale_status = some "AVAILABLE") :
    concCheck env true order = (.result true (earlyScan p1.ticket_classes), [1]) := by
  have hne : (earlyScan p1.ticket_classes).isEmpty = false := by
    rw [earlyScan_eq_finalScan]
    rcases havail with ⟨tc, htc, hav⟩
    by_contra hemp
    simp only [Bool.not_eq_false] at hemp
    exact (finalScan_isEmpty_iff _).mp hemp tc htc hav
  simp [concCheck, fetch_page, h1, hne]

/-- Page-1 payload with an AVAILABLE entry and two further pages. -/
def payC6 : Payload := ⟨[tcSold, tcAvail], ⟨some true, some 3⟩⟩

/-- Environment answering every page with payC6. -/
def envC6 : Nat → HttpResult := fun _ => .resp 200 payC6

/-- Witness for C6 at a concrete available page 1. -/
theorem conc_early_exit_page1_witness :
    concCheck envC6 true [2, 3] = (.result true (earlyScan payC6.ticket_classes), [1]) :=
  conc_early_exit_page1 envC6 payC6 [2, 3] rfl ⟨tcAvail, by decide, rfl⟩

/-- C9: when the page-1 payload carries no pagination metadata, both modes
issue no fetch beyond page 1 (page_count defaults to 1, has_more_items
defaults to false) and the verdict with its matched set is computed from
the page-1 tickets alone. -/
theorem no_pagination_single_page (env : Nat → HttpResult) (p1 : Payload)
    (e : Bool) (order : List Nat) (fuel : Nat)
    (h1 : env 1 = .resp 200 p1)
    (hpc : p1.pagination.page_count = none)
    (hmore : p1.pagination.has_more_items = none) :
    concCheck env e order =
      (.result (!(finalScan p1.ticket_classes).isEmpty) (finalScan p1.ticket_classes), [1])
    ∧ seqCheck env e (fuel + 1) =
      (.result (!(finalScan p1.ticket_classes).isEmpty) (finalScan p1.ticket_classes), [1]) := by
  have hscan := earlyScan_eq_finalScan p1.ticket_classes
  by_cases hb : (e && !(earlyScan p1.ticket_classes).isEmpty) = true
  · have he : e = true := by
      cases e
      · simp at hb
      · rfl
    have hne : (finalScan p1.ticket_classes).isEmpty = false := by
      rw [← hscan]
      cases hse : (earlyScan p1.ticket_classes).isEmpty
      · rfl
      · rw [hse] at hb
        simp [he] at hb
    constructor
    · simp [concCheck, fetch_page, h1, hscan, hne, he]
    · simp [seqCheck, seqLoop, fetch_page, h1, hscan, hne, he]
  · have hbf : (e && !(earlyScan p1.ticket_classes).isEmpty) = false := by
      simpa using hb
    constructor
    · simp [concCheck, fetch_page, h1, hbf, hpc, evaluateAvailability]
    · simp [seqCheck, seqLoop, fetch_page, h1, hbf, hmore, evaluateAvailability]

/-- Payload with tickets but no pagination object. -/
def pay9 : Payload := ⟨[tcAvail], ⟨none, none⟩⟩

/-- Environment answering every page with pay9. -/
def env9 : Nat → HttpResult := fun _ => .resp 200 pay9

/-- Witness for C9 at a concrete payload without pagination metadata. -/
theorem no_pagination_single_page_witness :
    concCheck env9 false [] =
      (.result (!(finalScan pay9.ticket_classes).isEmpty) (finalScan pay9.ticket_classes), [1])
    ∧ seqCheck env9 false 3 =
      (.result (!(finalScan pay9.ticket_classes).isEmpty) (finalScan pay9.ticket_classes), [1]) :=
  no_pagination_single_page env9 pay9 false [] 2 rfl rfl rfl

/-- C5: in concurrent mode with early exit disabled, when page 1 reports
page_count pages, the issued-fetch trace is page 1 followed by pages
2..page_count, contains no duplicate, and contains a page exactly when its
number lies in 1..page_count, independently of the completion order. -/
theorem conc_all_pages_once (env : Nat → HttpResult) (p1 : Payload)
    (order : List Nat) (pc : Nat)
    (h1 : env 1 = .resp 200 p1)
    (hpc : p1.pagination.page_count.getD 1 = pc)
    (hpc1 : 1 ≤ pc) :
    (concCheck env false order).2 = 1 :: List.range' 2 (pc - 1)
    ∧ (concCheck env false order).2.Nodup
    ∧ ∀ p : Nat, p ∈ (concCheck env false order).2 ↔ 1 ≤ p ∧ p ≤ pc := by
  have htr : (concCheck env false order).2 = 1 :: List.range' 2 (pc - 1) := by
    by_cases hgt : pc > 1
    · simp only [concCheck, h1, fetch_page]
      norm_num [hpc, hgt]
      cases hcl : concLoop env false order p1.ticket_classes <;> simp [hcl]
    · have hpc1' : pc = 1 := by omega
      subst hpc1'
      simp [concCheck, fetch_page, h1, hpc, hgt]
  refine ⟨htr, ?_, ?_⟩
  · rw [htr, List.nodup_cons]
    refine ⟨?_, List.nodup_range' 2 (pc - 1)⟩
    simp [List.mem_range'_1]
  · intro p
    rw [htr]
    simp only [List.mem_cons, List.mem_range'_1]
    omega

/-- Environment answering every page with pay5. -/
def env5 : Nat → HttpResult := fun _ => .resp 200 pay5

/-- Witness for C5 at a concrete three-page cycle with completion order
reversed. -/
theorem conc_all_pages_once_witness :
    (concCheck env5 false [3, 2]).2 = 1 :: List.range' 2 2
    ∧ ((2 : Nat) ∈ (concCheck env5 false [3, 2]).2 ↔ 1 ≤ 2 ∧ 2 ≤ 3) :=
  ⟨(conc_all_pages_once env5 pay5 [3, 2] 3 rfl rfl (by omega)).1,
   (conc_all_pages_once env5 pay5 [3, 2] 3 rfl rfl (by omega)).2.2 2⟩

/-- Running the sequential loop from page p over m+1 consecutive successful
pages, of which the first m report more items and the last does not,
merges the pages in order and fetches exactly the pages p..p+m. -/
lemma seqLoop_all_ok (env : Nat → HttpResult) (pages : Nat → Payload) :
    ∀ (m p fuel : Nat) (acc : List TicketClass) (tr : List Nat),
      m + 1 ≤ fuel →
      (∀ k, p ≤ k → k ≤ p + m → env k = .resp 200 (pages k)) →
      (∀ k, p ≤ k → k < p + m → (pages k).pagination.has_more_items.getD false = true) →
      (pages (p + m)).pagination.has_more_items.getD false = false →
      seqLoop env false fuel p acc tr =
        (.finished (acc ++ (List.range' p (m + 1)).flatMap fun k => (pages k).ticket_classes),
         tr ++ List.range' p (m + 1)) := by
  intro m
  induction m with
  | zero =>
    intro p fuel acc tr hfuel hresp _hmore hlast
    obtain ⟨f, rfl⟩ : ∃ f, fuel = f + 1 := ⟨fuel - 1, by omega⟩
    have h200 := hresp p (Nat.le_refl p) (by omega)
    have hl : (pages p).pagination.has_more_items.getD false = false := by
      simpa using hlast
    simp [seqLoop, fetch_page, h200, hl, List.range']
  | succ m2 ih =>
    intro p fuel acc tr hfuel hresp hmore hlast
    obtain ⟨f, rfl⟩ : ∃ f, fuel = f + 1 := ⟨fuel - 1, by omega⟩
    have h200 := hresp p (Nat.le_refl p) (by omega)
    have hm : (pages p).pagination.has_more_items.getD false = true :=
      hmore p (Nat.le_refl p) (by omega)
    have step : seqLoop env false (f + 1) p acc tr =
        seqLoop env false f (p + 1) (acc ++ (pages p).ticket_classes) (tr ++ [p]) := by
      simp [seqLoop, fetch_page, h200, hm]
    rw [step]
    rw [ih (p + 1) f (acc ++ (pages p).ticket_classes) (tr ++ [p])
          (by omega)
          (fun k hk1 hk2 => hresp k (by omega) (by omega))
          (fun k hk1 hk2 => hmore k (by omega) (by omega))
          (by have e : p + 1 + m2 = p + (m2 + 1) := by omega
              rw [e]
              exact hlast)]
    simp [List.range'_succ, List.append_assoc]

/-- C4: a sequential-mode cycle over N pages in which every fetch succeeds
and only page N reports no more items merges the pages in page order, its
merged list length is the sum of the per-page ticket counts, and the
fetched pages are exactly 1..N in strictly increasing order, the loop
stopping at the first page whose pagination reports no more items. -/
theorem seq_all_pages (env : Nat → HttpResult) (pages : Nat → Payload) (N fuel : Nat)
    (hN : 1 ≤ N) (hfuel : N ≤ fuel)
    (hresp : ∀ k, 1 ≤ k → k ≤ N → env k = .resp 200 (pages k))
    (hmore : ∀ k, 1 ≤ k → k < N → (pages k).pagination.has_more_items.getD false = true)
    (hlast : (pages N).pagination.has_more_items.getD false = false) :
    seqLoop env false fuel 1 [] [] =
      (.finished ((List.range' 1 N).flatMap fun k => (pages k).ticket_classes),
       List.range' 1 N)
    ∧ ((List.range' 1 N).flatMap fun k => (pages k).ticket_classes).length =
        ((List.range' 1 N).map fun k => (pages k).ticket_classes.length).sum
    ∧ (List.range' 1 N).Pairwise (· < ·) := by
  obtain ⟨m, rfl⟩ : ∃ m, N = m + 1 := ⟨N - 1, by omega⟩
  refine ⟨?_, ?_, ?_⟩
  · have h := seqLoop_all_ok env pages m 1 fuel [] [] (by omega)
      (fun k hk1 hk2 => hresp k hk1 (by omega))
      (fun k hk1 hk2 => hmore k hk1 (by omega))
      (by have e : 1 + m = m + 1 := by omega
          rw [e]
          exact hlast)
    simpa using h
  · simp [List.flatMap, List.length_flatten, List.map_map, Function.comp_def]
  · exact List.pairwise_lt_range' 1 (m + 1)

/-- Three-page environment with distinct ticket counts per page, the last
page reporting no more items. -/
def pagesC4 : Nat → Payload := fun k =>
  if k = 1 then ⟨[tcSold], ⟨some true, some 3⟩⟩
  else if k = 2 then ⟨[tcSold, tcSold], ⟨some true, some 3⟩⟩
  else ⟨[tcAvail], ⟨some false, some 3⟩⟩

/-- Environment serving pagesC4 with status 200. -/
def envC4 : Nat → HttpResult := fun k => .resp 200 (pagesC4 k)

/-- Witness for C4 over three concrete pages. -/
theorem seq_all_pages_witness :
    seqLoop envC4 false 5 1 [] [] =
      (.finished ((List.range' 1 3).flatMap fun k => (pagesC4 k).ticket_classes),
       List.range' 1 3)
    ∧ ((List.range' 1 3).flatMap fun k => (pagesC4 k).ticket_classes).length =
        ((List.range' 1 3).map fun k => (pagesC4 k).ticket_classes.length).sum
    ∧ (List.range' 1 3).Pairwise (· < ·) :=
  seq_all_pages envC4 pagesC4 3 5 (by omega) (by omega)
    (fun k hk1 hk2 => rfl)
    (fun k hk1 hk2 => by
      interval_cases k
      · rfl
      · rfl)
    rfl

/-- Page-1 payload holding an AVAILABLE ticket and announcing more pages. -/
def pageAvailMore : Payload := ⟨[tcAvail], ⟨some true, some 2⟩⟩

/-- Environment in which page 1 succeeds with an AVAILABLE ticket and every
later fetch fails at transport level. -/
def envTransport : Nat → HttpResult := fun n =>
  if n = 1 then .resp 200 pageAvailMore else .transportError

/-- Counterexample to C3 as stated: in a sequential cycle with early exit
disabled, page 1 merges an AVAILABLE ticket and page 2 then fails at
transport level; the exception handler of lines 330-332 makes the whole
cycle report not available with an empty matched set, even though the
tickets of the remaining, non-failing page evaluate to available — the
verdict is not produced from the remaining pages. -/
theorem transport_failure_counterexample :
    seqCheck envTransport false 5 = (.result false [], [1, 2])
    ∧ (evaluateAvailability pageAvailMore.ticket_classes).1 = true := by
  constructor
  · rfl
  · rfl

/-- C3 amended: a fetch returning no data (any non-2xx, non-429 status) is
recovered locally — in the concurrent merge loop the page is skipped and
contributes nothing, and in the sequential loop the page contributes
nothing and the loop moves on to the final evaluation of what was merged
before it.  A transport-level failure is instead recovered only at the
cycle boundary: in sequential mode, and in concurrent mode whenever the
merge loop consumes the failing future before finding an available page,
the cycle completes with a not-available verdict and an empty matched set
regardless of the tickets already merged; in a concurrent early-exit cycle
in which a page with an AVAILABLE entry is consumed before the failing
future, the failure is never consumed and the cycle returns the available
verdict taken from that page. -/
theorem transient_failure_amended
    (env envS envR envA : Nat → HttpResult)
    (e eS eR eA : Bool)
    (p q fuel fuelS : Nat)
    (rest restq orderR orderA : List Nat)
    (acc accq accS accR accA : List TicketClass)
    (tr trS : List Nat)
    (p1R p1A : Payload)
    (pcR pcA : Nat)
    (mA : List AvailableTicket)
    (hnodata : fetch_page (env p) = .noData)
    (hraiseS : seqLoop envS eS fuelS 1 [] [] = (.raised accS, trS))
    (hraiseq : fetch_page (envR q) = .raised)
    (h1R : envR 1 = .resp 200 p1R)
    (hbR : (eR && !(earlyScan p1R.ticket_classes).isEmpty) = false)
    (hpcR : p1R.pagination.page_count.getD 1 = pcR)
    (hgtR : 1 < pcR)
    (hloopR : concLoop envR eR orderR p1R.ticket_classes = .raised accR)
    (h1A : envA 1 = .resp 200 p1A)
    (hbA : (eA && !(earlyScan p1A.ticket_classes).isEmpty) = false)
    (hpcA : p1A.pagination.page_count.getD 1 = pcA)
    (hgtA : 1 < pcA)
    (hloopA : concLoop envA eA orderA p1A.ticket_classes = .earlyAvailable mA accA) :
    concLoop env e (p :: rest) acc = concLoop env e rest acc
    ∧ seqLoop env e (fuel + 1) p acc tr = (.finished acc, tr ++ [p])
    ∧ seqCheck envS eS fuelS = (.result false [], trS)
    ∧ concLoop envR eR (q :: restq) accq = .raised accq
    ∧ concCheck envR eR orderR = (.result false [], 1 :: List.range' 2 (pcR - 1))
    ∧ concCheck envA eA orderA = (.result true mA, 1 :: List.range' 2 (pcA - 1)) := by
  refine ⟨?_, ?_, ?_, ?_, ?_, ?_⟩
  · simp [concLoop, hnodata]
  · simp [seqLoop, hnodata]
  · simp [seqCheck, hraiseS]
  · simp [concLoop, hraiseq]
  · simp [concCheck, fetch_page, h1R, hbR, hpcR, hgtR, hloopR]
  · simp [concCheck, fetch_page, h1A, hbA, hpcA, hgtA, hloopA]

/-- Environment answering every fetch with status 404. -/
def env404 : Nat → HttpResult := fun _ => .resp 404 emptyPay

/-- Environment failing every fetch at transport level. -/
def envRaise : Nat → HttpResult := fun _ => .transportError

/-- Page payload with one AVAILABLE ticket and no further pages. -/
def payAvailLast : Payload := ⟨[tcAvail], ⟨some false, some 3⟩⟩

/-- Concurrent early-exit cycle in which page 2 holds an AVAILABLE ticket
and page 3 fails at transport level. -/
def envConcA : Nat → HttpResult := fun n =>
  if n = 1 then .resp 200 pay5
  else if n = 2 then .resp 200 payAvailLast
  else .transportError

/-- Witness for the amended C3 at concrete environments: a 404 page skipped
locally, a sequential transport abort, a concurrent transport abort, and a
concurrent early-exit cycle that finds an AVAILABLE page before its
failing future. -/
theorem transient_failure_amended_witness :
    concLoop env404 false (2 :: [3]) [] = concLoop env404 false [3] []
    ∧ seqLoop env404 false 3 2 [] [1] = (.finished [], [1] ++ [2])
    ∧ seqCheck envRaise false 1 = (.result false [], [1])
    ∧ concLoop envTransport false (2 :: [3]) [] = .raised []
    ∧ concCheck envTransport false [2] = (.result false [], 1 :: List.range' 2 1)
    ∧ concCheck envConcA true [2, 3] =
        (.result true (earlyScan payAvailLast.ticket_classes), 1 :: List.range' 2 2) :=
  transient_failure_amended env404 envRaise envTransport envConcA
    false false false true 2 2 2 1 [3] [3] [2] [2, 3]
    [] [] [] pageAvailMore.ticket_classes (pay5.ticket_classes ++ payAvailLast.ticket_classes)
    [1] [1] pageAvailMore pay5 2 3 (earlyScan payAvailLast.ticket_classes)
    rfl rfl rfl rfl rfl rfl (by omega) rfl rfl rfl rfl (by omega) rfl

/-- C8: when the Check availability step resolves but every date-selection
fallback strategy fails to produce a date element, the attempt raises the
TimeoutException of line 541, which is caught at the attempt boundary:
automate_registration returns failure after attempting exactly one
diagnostic screenshot capture, no exception escapes, and purchase_attempt
then shows the manual-handoff message to the operator. -/
theorem date_failure_handoff {β : Type} (env : AutomationEnv β) (b : β)
    (hbtn : resolveOrXPath env.checkAvailabilityChain env.checkAvailabilityXPath = .ok b)
    (h1 : env.date.nonButtonDate = none)
    (h2 : env.date.enabledLi = none)
    (h3 : env.date.calendarAreaButton = none) :
    automate_registration env = ⟨false, 1⟩
    ∧ purchase_attempt env = ⟨false, 1, true⟩ := by
  have hdate : findAvailableDate env.date = none := by
    simp [findAvailableDate, h1, h2, h3]
  have hbody : automationBody env = .error .timeout := by
    simp [automationBody, hbtn, hdate, bind, Except.bind]
  constructor
  · simp [automate_registration, hbody]
  · simp [purchase_attempt, automate_registration, hbody]

/-- Concrete automation environment whose first step resolves and whose
date-selection strategies all fail. -/
def autoEnvC8 : AutomationEnv Nat :=
  ⟨[some 0], none, ⟨4, none, none, none⟩, [some 1], [some 2], none⟩

/-- Witness for C8 at a concrete automation environment. -/
theorem date_failure_handoff_witness :
    automate_registration autoEnvC8 = ⟨false, 1⟩
    ∧ purchase_attempt autoEnvC8 = ⟨false, 1, true⟩ :=
  date_failure_handoff autoEnvC8 0 rfl rfl rfl rfl

end EventbriteApp
